import Mathlib

/-!
Verification of the SimpleCRM Pro backend (`src/main.py`, `src/schemas.py`).

The API layer and schema layer are embedded from the source. The storage
gateway (`database.py`: `db`, `create_document`, `get_documents`) is not part
of the provided sources, so it is modelled from the specification's §4.2
storage-gateway contract; the definitions concerned say so in their doc
comments. Mongo query evaluation (`count_documents` / `find` with `$nin` and
equality conditions) is embedded with standard MongoDB matching semantics.
-/

set_option autoImplicit false
set_option maxRecDepth 8000

namespace SimpleCRM

/-- A stored JSON/BSON value. Documents created through this API only ever
hold strings, numbers, booleans, nulls, object ids, lists of strings
(`Contact.tags`) and flat string maps (`Activity.meta` as written by
`/email/send`), so those shapes suffice for the embedding. Python floats are
modelled as rationals: no claim exercises floating-point rounding. -/
inductive Value where
  | vNull
  | vStr (s : String)
  | vNum (q : ℚ)
  | vBool (b : Bool)
  | vId (n : Nat)
  | vStrList (l : List String)
  | vStrMap (m : List (String × String))
  deriving Repr, DecidableEq

/-- A document: a Python dict with string keys, in insertion order. -/
abbrev Doc : Type := List (String × Value)

/-- Python `d.get(k)` / `d[k]`: the value at the first (unique) occurrence of
the key. -/
def dictGet : Doc → String → Option Value
  | [], _ => none
  | (k, v) :: rest, key => if k = key then some v else dictGet rest key

/-- Python `d[key] = v`: replaces the value in place when the key exists,
appends the pair at the end otherwise. -/
def dictSet : Doc → String → Value → Doc
  | [], key, v => [(key, v)]
  | (k, w) :: rest, key, v =>
    if k = key then (k, v) :: rest else (k, w) :: dictSet rest key v

/-- Python `d.pop(key, None)`: removes the (first) entry with the key. -/
def dictPop : Doc → String → Doc
  | [], _ => []
  | (k, v) :: rest, key => if k = key then rest else (k, v) :: dictPop rest key

/-- Python `str()` on the values that reach it in this code base (`to_str_id`
applies it to an `_id`, which is an `ObjectId` or absent). An `ObjectId`'s
string form is modelled as the decimal form of its counter. -/
def pyStr : Value → String
  | .vNull => "None"
  | .vStr s => s
  | .vNum q => toString q
  | .vBool b => cond b "True" "False"
  | .vId n => toString n
  | .vStrList _ => "<list>"
  | .vStrMap _ => "<dict>"

/-! ### Mongo query evaluation -/

/-- A condition on one field of a Mongo filter document: either a plain
equality value or a `{"$nin": [...]}` clause (the only operator used by
`main.py`). -/
inductive Cond where
  | ceq (v : Value)
  | cnin (vs : List Value)
  deriving Repr, DecidableEq

/-- Mongo equality match of a stored field value against a query value: the
values are equal, or the stored value is an array containing the query
value (this is how a `tags` equality filter acts as membership). -/
def valMatchesEq (dv : Value) (v : Value) : Bool :=
  dv = v ||
    (match dv, v with
     | .vStrList l, .vStr s => l.contains s
     | _, _ => false)

/-- Mongo per-field matching: `ceq` fails on a missing field (unless the query
value is null, which Mongo lets match a missing field); `cnin` matches when
the stored value matches none of the listed values, and matches a missing
field unless null is listed. -/
def condMatches (dv : Option Value) : Cond → Bool
  | .ceq v =>
    match dv with
    | some d => valMatchesEq d v
    | none => v = Value.vNull
  | .cnin vs =>
    match dv with
    | some d => !(vs.any (fun v => valMatchesEq d v))
    | none => !(vs.contains Value.vNull)

/-- A document matches a filter when every field condition matches. -/
def docMatches (q : List (String × Cond)) (d : Doc) : Bool :=
  q.all (fun kc => condMatches (dictGet d kc.1) kc.2)

/-- Mongo `collection.find(q)`: the matching documents, in store order. -/
def findDocs (coll : List Doc) (q : List (String × Cond)) : List Doc :=
  coll.filter (docMatches q)

/-- Mongo `collection.count_documents(q)`. -/
def count_documents (coll : List Doc) (q : List (String × Cond)) : Nat :=
  (findDocs coll q).length

/-! ### The store -/

/-- The document store: one collection per entity type (the five used by
`main.py`), plus the counter from which fresh `ObjectId`s are minted. -/
structure DB where
  contact : List Doc
  company : List Doc
  deal : List Doc
  activity : List Doc
  emailcampaign : List Doc
  nextId : Nat
  deriving Repr, DecidableEq

/-- The collection named by an entity type. -/
def getColl (db : DB) (entityType : String) : List Doc :=
  if entityType = "contact" then db.contact
  else if entityType = "company" then db.company
  else if entityType = "deal" then db.deal
  else if entityType = "activity" then db.activity
  else if entityType = "emailcampaign" then db.emailcampaign
  else []

/-- Replaces the collection named by an entity type (only the five names above
occur in `main.py`; any other name leaves the store unchanged). -/
def putColl (db : DB) (entityType : String) (coll : List Doc) : DB :=
  if entityType = "contact" then { db with contact := coll }
  else if entityType = "company" then { db with company := coll }
  else if entityType = "deal" then { db with deal := coll }
  else if entityType = "activity" then { db with activity := coll }
  else if entityType = "emailcampaign" then { db with emailcampaign := coll }
  else db

/-- Mongo `insert_one` id assignment: the document receives a fresh `_id`
unless it already carries one (pymongo only sets `_id` when absent, appending
the key at the end of the dict). -/
def withId (payload : Doc) (n : Nat) : Doc :=
  match dictGet payload "_id" with
  | some _ => payload
  | none => payload ++ [("_id", Value.vId n)]

/-- Modelled from the spec: `create_document` lives in `database.py`, which is
not among the provided sources. Per §4.2, it inserts the payload into the
collection named after the entity type, assigns a fresh unique identity, and
returns that identity (as a string, per §4.3's `{id: <assigned identity as
string>}` response). -/
def create_document (db : DB) (entityType : String) (payload : Doc) :
    DB × String :=
  let doc := withId payload db.nextId
  let db1 := putColl db entityType (getColl db entityType ++ [doc])
  ({ db1 with nextId := db.nextId + 1 }, pyStr (Value.vId db.nextId))

/-- Modelled from the spec: `get_documents` lives in `database.py`, which is
not among the provided sources. Per §4.2, it performs an equality-match query
with the supplied filter map (a missing key means no constraint) and returns
at most `limit` documents when a limit is supplied (unrestricted otherwise). -/
def get_documents (db : DB) (entityType : String) (q : Doc)
    (limit : Option Nat) : List Doc :=
  let r := findDocs (getColl db entityType) (q.map (fun kv => (kv.1, Cond.ceq kv.2)))
  match limit with
  | none => r
  | some n => r.take n

/-! ### Response reshaping (`main.py`, `to_str_id`) -/

/-- `to_str_id` from `main.py`: on a non-empty document, sets
`doc["id"] = str(doc.get("_id"))` and then `doc.pop("_id", None)`. -/
def to_str_id (doc : Doc) : Doc :=
  if doc = [] then doc
  else dictPop (dictSet doc "id" (Value.vStr (pyStr ((dictGet doc "_id").getD Value.vNull)))) "_id"

/-! ### Schema layer (`schemas.py`)

Pydantic validation is embedded with strict field typing: a required `str`
field must hold a string, `value : float` must hold a number, a `Literal`
field must hold one of its listed strings, optional fields also accept null
or absence. Pydantic's version-dependent lax coercions (e.g. a numeric string
for a `float` field) are not modelled; no theorem below relies on an input
that only a coercion could accept. A validator returns the offending field
names, or the validated document with defaults filled in, with fields in
declaration order (the model's `dict()`). -/

/-- Field error for a required `str` field. -/
def reqStrErr (p : Doc) (k : String) : List String :=
  match dictGet p k with
  | some (.vStr _) => []
  | _ => [k]

/-- Field error for an `Optional[str]` field (absent and null are fine). -/
def optStrErr (p : Doc) (k : String) : List String :=
  match dictGet p k with
  | none => []
  | some .vNull => []
  | some (.vStr _) => []
  | some _ => [k]

/-- Field error for a required numeric (`float`) field. -/
def reqNumErr (p : Doc) (k : String) : List String :=
  match dictGet p k with
  | some (.vNum _) => []
  | _ => [k]

/-- Field error for a defaulted `Literal[...]` field: absence is fine, a
present value must be one of the allowed strings. -/
def litErr (p : Doc) (k : String) (allowed : List String) : List String :=
  match dictGet p k with
  | none => []
  | some (.vStr s) => if s ∈ allowed then [] else [k]
  | some _ => [k]

/-- Field error for a required `Literal[...]` field. -/
def reqLitErr (p : Doc) (k : String) (allowed : List String) : List String :=
  match dictGet p k with
  | some (.vStr s) => if s ∈ allowed then [] else [k]
  | _ => [k]

/-- Field error for `tags: List[str]` (absent defaults to `[]`). -/
def tagsErr (p : Doc) : List String :=
  match dictGet p "tags" with
  | none => []
  | some (.vStrList _) => []
  | some _ => ["tags"]

/-- Field error for `meta: dict` (absent defaults to `{}`). -/
def metaErr (p : Doc) : List String :=
  match dictGet p "meta" with
  | none => []
  | some (.vStrMap _) => []
  | some _ => ["meta"]

/-- The payload's value for a field, or the schema default. -/
def fieldD (p : Doc) (k : String) (d : Value) : Value :=
  (dictGet p k).getD d

/-- The `stage` enumeration of the `Deal` schema. -/
def dealStages : List String :=
  ["New", "Contacted", "Proposal Sent", "Negotiation", "Won", "Lost"]

/-- The `funnel_stage` enumeration of the `Contact` schema. -/
def contactStages : List String :=
  ["New", "Contacted", "Qualified", "Proposal Sent", "Negotiation", "Won", "Lost"]

/-- The `entity_type` enumeration of the `Activity` schema. -/
def activityEntityTypes : List String := ["contact", "deal", "company"]

/-- The `type` enumeration of the `Activity` schema. -/
def activityTypes : List String :=
  ["deal_update", "email_sent", "status_change", "note"]

/-- The `segment` enumeration of the `EmailCampaign` schema. -/
def campaignSegments : List String :=
  ["all_contacts", "by_tag", "by_company", "funnel_stage"]

/-- A container value (list or map). For a scalar field (`str`, `float` or
`Literal`) a container is a wrong primitive type that every pydantic version
rejects, independent of its lax-coercion mode. -/
def isContainer : Value → Bool
  | .vStrList _ => true
  | .vStrMap _ => true
  | _ => false

/-- The offending fields of a Deal payload. -/
def dealErrs (p : Doc) : List String :=
  reqStrErr p "deal_name" ++ reqNumErr p "value" ++ litErr p "stage" dealStages
    ++ optStrErr p "contact_id" ++ optStrErr p "company_id"
    ++ optStrErr p "deadline" ++ optStrErr p "notes"

/-- Validation of the `Deal` schema: `deal_name : str` and `value : float`
required, `stage` a literal from `dealStages` defaulting to `"New"`, the rest
optional strings. -/
def validateDeal (p : Doc) : Except (List String) Doc :=
  let errs := dealErrs p
  if errs = [] then
    .ok [("deal_name", fieldD p "deal_name" .vNull),
         ("value", fieldD p "value" .vNull),
         ("stage", fieldD p "stage" (.vStr "New")),
         ("contact_id", fieldD p "contact_id" .vNull),
         ("company_id", fieldD p "company_id" .vNull),
         ("deadline", fieldD p "deadline" .vNull),
         ("notes", fieldD p "notes" .vNull)]
  else .error errs

/-- The offending fields of a Contact payload. -/
def contactErrs (p : Doc) : List String :=
  reqStrErr p "first_name" ++ reqStrErr p "last_name" ++ optStrErr p "email"
    ++ optStrErr p "phone" ++ optStrErr p "company_id" ++ tagsErr p
    ++ optStrErr p "source" ++ optStrErr p "notes"
    ++ litErr p "funnel_stage" contactStages

/-- Validation of the `Contact` schema (`EmailStr` format checking is
abstracted to a string check; no theorem relies on it). -/
def validateContact (p : Doc) : Except (List String) Doc :=
  let errs := contactErrs p
  if errs = [] then
    .ok [("first_name", fieldD p "first_name" .vNull),
         ("last_name", fieldD p "last_name" .vNull),
         ("email", fieldD p "email" .vNull),
         ("phone", fieldD p "phone" .vNull),
         ("company_id", fieldD p "company_id" .vNull),
         ("tags", fieldD p "tags" (.vStrList [])),
         ("source", fieldD p "source" .vNull),
         ("notes", fieldD p "notes" .vNull),
         ("funnel_stage", fieldD p "funnel_stage" (.vStr "New"))]
  else .error errs

/-- The offending fields of a Company payload. -/
def companyErrs (p : Doc) : List String :=
  reqStrErr p "company_name" ++ optStrErr p "address"
    ++ optStrErr p "website" ++ optStrErr p "notes"

/-- Validation of the `Company` schema. -/
def validateCompany (p : Doc) : Except (List String) Doc :=
  let errs := companyErrs p
  if errs = [] then
    .ok [("company_name", fieldD p "company_name" .vNull),
         ("address", fieldD p "address" .vNull),
         ("website", fieldD p "website" .vNull),
         ("notes", fieldD p "notes" .vNull)]
  else .error errs

/-- The offending fields of an Activity payload. -/
def activityErrs (p : Doc) : List String :=
  reqLitErr p "entity_type" activityEntityTypes
    ++ reqStrErr p "entity_id"
    ++ reqLitErr p "type" activityTypes
    ++ reqStrErr p "message" ++ metaErr p

/-- Validation of the `Activity` schema. -/
def validateActivity (p : Doc) : Except (List String) Doc :=
  let errs := activityErrs p
  if errs = [] then
    .ok [("entity_type", fieldD p "entity_type" .vNull),
         ("entity_id", fieldD p "entity_id" .vNull),
         ("type", fieldD p "type" .vNull),
         ("message", fieldD p "message" .vNull),
         ("meta", fieldD p "meta" (.vStrMap []))]
  else .error errs

/-- The offending fields of an EmailCampaign payload. -/
def campaignErrs (p : Doc) : List String :=
  reqStrErr p "subject" ++ reqStrErr p "html"
    ++ reqLitErr p "segment" campaignSegments
    ++ optStrErr p "tag" ++ optStrErr p "company_id"
    ++ optStrErr p "funnel_stage" ++ optStrErr p "scheduled_at"

/-- Validation of the `EmailCampaign` schema (`scheduled_at : datetime` is
accepted as an ISO timestamp string; no theorem relies on its parsing). -/
def validateCampaign (p : Doc) : Except (List String) Doc :=
  let errs := campaignErrs p
  if errs = [] then
    .ok [("subject", fieldD p "subject" .vNull),
         ("html", fieldD p "html" .vNull),
         ("segment", fieldD p "segment" .vNull),
         ("tag", fieldD p "tag" .vNull),
         ("company_id", fieldD p "company_id" .vNull),
         ("funnel_stage", fieldD p "funnel_stage" .vNull),
         ("scheduled_at", fieldD p "scheduled_at" .vNull)]
  else .error errs

/-! ### API layer (`main.py`) -/

/-- An endpoint's HTTP outcome: a JSON document, a JSON list, or the 422
validation error FastAPI produces before the handler (and hence any store
interaction) runs, carrying the offending field names. -/
inductive Resp where
  | okDoc (body : Doc)
  | okList (body : List Doc)
  | validationError (fields : List String)
  deriving Repr, DecidableEq

/-- Python truthiness of an `Optional[str]` query parameter (`if tag:`):
`None` and the empty string are falsy. -/
def truthyStr : Option String → Option String
  | some s => if s = "" then none else some s
  | none => none

/-- Python `payload.provider or "mock"`: the provider when truthy (present
and non-empty), `"mock"` when it is `None` or the empty string. -/
def providerOrMock (provider : Option String) : String :=
  (truthyStr provider).getD "mock"

/-- `POST /contacts`. -/
def create_contact (db : DB) (payload : Doc) : DB × Resp :=
  match validateContact payload with
  | .error errs => (db, .validationError errs)
  | .ok d =>
    let r := create_document db "contact" d
    (r.1, .okDoc [("id", Value.vStr r.2)])

/-- `POST /companies`. -/
def create_company (db : DB) (payload : Doc) : DB × Resp :=
  match validateCompany payload with
  | .error errs => (db, .validationError errs)
  | .ok d =>
    let r := create_document db "company" d
    (r.1, .okDoc [("id", Value.vStr r.2)])

/-- `POST /deals`. -/
def create_deal (db : DB) (payload : Doc) : DB × Resp :=
  match validateDeal payload with
  | .error errs => (db, .validationError errs)
  | .ok d =>
    let r := create_document db "deal" d
    (r.1, .okDoc [("id", Value.vStr r.2)])

/-- `POST /activities`. -/
def create_activity (db : DB) (payload : Doc) : DB × Resp :=
  match validateActivity payload with
  | .error errs => (db, .validationError errs)
  | .ok d =>
    let r := create_document db "activity" d
    (r.1, .okDoc [("id", Value.vStr r.2)])

/-- `POST /email/campaigns`. -/
def create_campaign (db : DB) (payload : Doc) : DB × Resp :=
  match validateCampaign payload with
  | .error errs => (db, .validationError errs)
  | .ok d =>
    let r := create_document db "emailcampaign" d
    (r.1, .okDoc [("id", Value.vStr r.2)])

/-- `GET /contacts`: builds the filter from the truthy query parameters
(`tag` filters the multi-valued `tags` field, `stage` filters
`funnel_stage`), lists, and reshapes each document. -/
def list_contacts (db : DB) (tag company_id stage : Option String) :
    List Doc :=
  let q : Doc :=
    (match truthyStr tag with
     | some t => [("tags", Value.vStr t)]
     | none => [])
    ++ (match truthyStr company_id with
        | some c => [("company_id", Value.vStr c)]
        | none => [])
    ++ (match truthyStr stage with
        | some s => [("funnel_stage", Value.vStr s)]
        | none => [])
  (get_documents db "contact" q none).map to_str_id

/-- `GET /companies`: unfiltered list. -/
def list_companies (db : DB) : List Doc :=
  (get_documents db "company" [] none).map to_str_id

/-- `GET /deals`: optional truthy `stage` filter. -/
def list_deals (db : DB) (stage : Option String) : List Doc :=
  let q : Doc :=
    match truthyStr stage with
    | some s => [("stage", Value.vStr s)]
    | none => []
  (get_documents db "deal" q none).map to_str_id

/-- `GET /activities`: optional truthy `entity_type` / `entity_id` filters,
and a limit of 200 passed to the storage gateway. -/
def list_activities (db : DB) (entity_type entity_id : Option String) :
    List Doc :=
  let q : Doc :=
    (match truthyStr entity_type with
     | some t => [("entity_type", Value.vStr t)]
     | none => [])
    ++ (match truthyStr entity_id with
        | some i => [("entity_id", Value.vStr i)]
        | none => [])
  (get_documents db "activity" q (some 200)).map to_str_id

/-- Models `float(d.get("value", 0) or 0)` in the pipeline-value loop: a
missing or falsy value (null, false, `0`, empty string or collection)
contributes 0; `float(True)` is 1. A truthy non-numeric value would raise
in Python — it is unreachable for schema-validated deals (the `value` field
is always a float there) and is mapped to 0 here. -/
def floatOrZero : Option Value → ℚ
  | some (.vNum q) => q
  | some (.vBool true) => 1
  | _ => 0

/-- `GET /stats/summary` (the `try` body, with the store available): the five
counts and sums, computed by the Mongo queries of `main.py`. -/
def stats_summary (db : DB) : Doc :=
  let total_contacts := count_documents db.contact []
  let active_deals :=
    count_documents db.deal [("stage", Cond.cnin [Value.vStr "Lost"])]
  let pipeline_value :=
    (findDocs db.deal [("stage", Cond.cnin [Value.vStr "Won", Value.vStr "Lost"])]).foldl
      (fun acc d => acc + floatOrZero (dictGet d "value")) 0
  let won_count := count_documents db.deal [("stage", Cond.ceq (Value.vStr "Won"))]
  let created_last_30_days := count_documents db.contact []
  [("total_contacts", Value.vNum total_contacts),
   ("active_deals", Value.vNum active_deals),
   ("pipeline_value", Value.vNum pipeline_value),
   ("won_deals", Value.vNum won_count),
   ("created_last_30_days", Value.vNum created_last_30_days)]

/-- The `/stats/summary` endpoint with its `try`/`except`: any storage
exception `e` is surfaced as `HTTPException(status_code=500, detail=str(e))`
— the full exception text, with no truncation applied. The store argument is
either the working store or the text of the exception its access raised. -/
def stats_summary_endpoint (store : Except String DB) :
    Except (Nat × String) Doc :=
  match store with
  | .error e => .error (500, e)
  | .ok db => .ok (stats_summary db)

/-- The body of `POST /email/send` (already bound to `SendEmailPayload` by
FastAPI). -/
structure SendEmailPayload where
  «to» : List String
  subject : String
  html : String
  provider : Option String
  deriving Repr, DecidableEq

/-- The activity document `send_email` writes for one recipient. -/
def emailActivityDoc (p : SendEmailPayload) (addr : String) : Doc :=
  [("entity_type", Value.vStr "contact"),
   ("entity_id", Value.vStr addr),
   ("type", Value.vStr "email_sent"),
   ("message", Value.vStr ("Email sent: " ++ p.subject)),
   ("meta", Value.vStrMap [("provider", providerOrMock p.provider)])]

/-- `POST /email/send`: logs one `email_sent` activity per recipient and
returns the mock result. -/
def send_email (db : DB) (p : SendEmailPayload) : DB × Resp :=
  let db' := p.«to».foldl
    (fun acc addr => (create_document acc "activity" (emailActivityDoc p addr)).1) db
  (db', .okDoc [("status", Value.vStr "queued"),
                ("provider", Value.vStr (providerOrMock p.provider)),
                ("sent", Value.vNum (p.«to».length : ℚ))])

/-- One request to any route `main.py` registers; there is no update or
delete route to represent. -/
inductive Request where
  | root
  | testDb
  | createContact (p : Doc)
  | createCompany (p : Doc)
  | createDeal (p : Doc)
  | createActivity (p : Doc)
  | createCampaign (p : Doc)
  | listContacts (tag company_id stage : Option String)
  | listCompanies
  | listDeals (stage : Option String)
  | listActivities (entity_type entity_id : Option String)
  | statsSummary
  | emailSend (p : SendEmailPayload)
  deriving Repr, DecidableEq

/-- The read-only routes (GET endpoints and the two probes). -/
def Request.isRead : Request → Bool
  | .root | .testDb | .listContacts _ _ _ | .listCompanies | .listDeals _
  | .listActivities _ _ | .statsSummary => true
  | _ => false

/-- Dispatch of one request against the store (the store being available;
`/test`'s connectivity diagnostics are abstracted to a constant body — the
handler performs no write, which is all the theorems use of it). -/
def handle (db : DB) : Request → DB × Resp
  | .root => (db, .okDoc [("message", Value.vStr "SimpleCRM Pro backend is running")])
  | .testDb => (db, .okDoc [("backend", Value.vStr "Running")])
  | .createContact p => create_contact db p
  | .createCompany p => create_company db p
  | .createDeal p => create_deal db p
  | .createActivity p => create_activity db p
  | .createCampaign p => create_campaign db p
  | .listContacts t c s => (db, .okList (list_contacts db t c s))
  | .listCompanies => (db, .okList (list_companies db))
  | .listDeals s => (db, .okList (list_deals db s))
  | .listActivities t i => (db, .okList (list_activities db t i))
  | .statsSummary => (db, .okDoc (stats_summary db))
  | .emailSend p => send_email db p

/-! ### Dictionary lemmas -/

lemma dictGet_eq_none_iff (d : Doc) (k : String) :
    dictGet d k = none ↔ k ∉ d.map Prod.fst := by
  induction d with
  | nil => simp [dictGet]
  | cons kv rest ih =>
    obtain ⟨a, v⟩ := kv
    by_cases h : a = k
    · subst h; simp [dictGet]
    · simp [dictGet, h, ih, Ne.symm h]

lemma dictGet_dictSet_self (d : Doc) (k : String) (v : Value) :
    dictGet (dictSet d k v) k = some v := by
  induction d with
  | nil => simp [dictSet, dictGet]
  | cons kv rest ih =>
    obtain ⟨a, w⟩ := kv
    by_cases h : a = k
    · subst h; simp [dictSet, dictGet]
    · simp [dictSet, dictGet, h, ih]

lemma dictGet_dictSet_ne (d : Doc) (k k' : String) (v : Value) (h : k' ≠ k) :
    dictGet (dictSet d k v) k' = dictGet d k' := by
  induction d with
  | nil => simp [dictSet, dictGet, Ne.symm h]
  | cons kv rest ih =>
    obtain ⟨a, w⟩ := kv
    by_cases ha : a = k
    · subst ha; simp [dictSet, dictGet, Ne.symm h]
    · simp [dictSet, dictGet, ha, ih]

lemma dictGet_dictPop_ne (d : Doc) (k k' : String) (h : k' ≠ k) :
    dictGet (dictPop d k) k' = dictGet d k' := by
  induction d with
  | nil => rfl
  | cons kv rest ih =>
    obtain ⟨a, w⟩ := kv
    by_cases ha : a = k
    · subst ha; simp [dictPop, dictGet, Ne.symm h]
    · simp [dictPop, dictGet, ha, ih]

lemma dictGet_dictPop_self (d : Doc) (k : String)
    (h : (d.map Prod.fst).Nodup) : dictGet (dictPop d k) k = none := by
  induction d with
  | nil => rfl
  | cons kv rest ih =>
    obtain ⟨a, w⟩ := kv
    rw [List.map_cons, List.nodup_cons] at h
    by_cases ha : a = k
    · subst ha
      simp only [dictPop, if_pos rfl]
      exact (dictGet_eq_none_iff rest a).mpr h.1
    · simp [dictPop, dictGet, ha, ih h.2]

lemma dictSet_eq_append (d : Doc) (k : String) (v : Value)
    (h : dictGet d k = none) : dictSet d k v = d ++ [(k, v)] := by
  induction d with
  | nil => rfl
  | cons kv rest ih =>
    obtain ⟨a, w⟩ := kv
    rw [dictGet] at h
    by_cases ha : a = k
    · rw [if_pos ha] at h; cases h
    · rw [if_neg ha] at h; simp [dictSet, ha, ih h]

/-! ### Claims about response reshaping and the trivial endpoints -/

/-- C7: `to_str_id` maps the internal `_id` to a string-valued `id` field,
removes `_id`, and leaves every other key/value pair of the document
unchanged. The hypotheses hold of every stored document this system creates:
documents are Python dicts (unique keys), receive an `_id` at insertion, and
no schema has an `id` field. -/
theorem c7_to_str_id_reshape (doc : Doc) (w : Value)
    (hne : doc ≠ [])
    (hnodup : (doc.map Prod.fst).Nodup)
    (hoid : dictGet doc "_id" = some w)
    (hid : dictGet doc "id" = none) :
    dictGet (to_str_id doc) "id" = some (Value.vStr (pyStr w)) ∧
    dictGet (to_str_id doc) "_id" = none ∧
    ∀ k, k ≠ "id" → k ≠ "_id" → dictGet (to_str_id doc) k = dictGet doc k := by
  have hts : to_str_id doc =
      dictPop (dictSet doc "id" (Value.vStr (pyStr w))) "_id" := by
    rw [to_str_id, if_neg hne, hoid]
    rfl
  refine ⟨?_, ?_, ?_⟩
  · rw [hts, dictGet_dictPop_ne _ _ _ (by decide), dictGet_dictSet_self]
  · rw [hts, dictSet_eq_append doc _ _ hid]
    apply dictGet_dictPop_self
    rw [List.map_append]
    refine List.Nodup.append hnodup (by simp) ?_
    intro x hx hx'
    simp only [List.map_cons, List.map_nil, List.mem_singleton] at hx'
    subst hx'
    exact (dictGet_eq_none_iff doc "id").mp hid hx
  · intro k hk1 hk2
    rw [hts, dictGet_dictPop_ne _ _ _ hk2, dictGet_dictSet_ne _ _ _ _ hk1]

/-- A stored document as the store would hold it. -/
def docEx7 : Doc := [("_id", Value.vId 7), ("first_name", Value.vStr "Ada")]

/-- C7 witness: the reshaping evaluated on a concrete stored document. -/
theorem c7_witness :
    dictGet (to_str_id docEx7) "id" = some (Value.vStr "7") ∧
    dictGet (to_str_id docEx7) "_id" = none ∧
    dictGet (to_str_id docEx7) "first_name" = some (Value.vStr "Ada") := by
  have h := c7_to_str_id_reshape docEx7 (Value.vId 7) (by decide) (by decide)
    rfl rfl
  exact ⟨h.1, h.2.1, (h.2.2 "first_name" (by decide) (by decide)).trans rfl⟩

lemma count_documents_nil_query (coll : List Doc) :
    count_documents coll [] = coll.length := by
  simp [count_documents, findDocs, docMatches]

/-- C3: the `created_last_30_days` field of `GET /stats/summary` equals the
`total_contacts` field of the same response; both are the plain contact
count, with no date filtering applied. -/
theorem c3_created_last_30_days_equals_total (db : DB) :
    dictGet (stats_summary db) "created_last_30_days" =
      dictGet (stats_summary db) "total_contacts" ∧
    dictGet (stats_summary db) "created_last_30_days" =
      some (Value.vNum (db.contact.length : ℚ)) := by
  constructor
  · rfl
  · have h1 : dictGet (stats_summary db) "created_last_30_days" =
        some (Value.vNum (count_documents db.contact [] : ℚ)) := rfl
    rw [h1, count_documents_nil_query]

lemma get_documents_limit_le (db : DB) (et : String) (q : Doc) (n : Nat) :
    (get_documents db et q (some n)).length ≤ n := by
  unfold get_documents
  simp only [List.length_take]
  exact Nat.min_le_left _ _

/-- C5: `GET /activities` returns at most 200 documents for every store state
and every combination of the optional filters. -/
theorem c5_list_activities_capped (db : DB)
    (entity_type entity_id : Option String) :
    (list_activities db entity_type entity_id).length ≤ 200 := by
  unfold list_activities
  rw [List.length_map]
  exact get_documents_limit_le db "activity" _ 200

/-- C10: an optional query parameter supplied as the empty string is treated
exactly like an absent parameter by every list endpoint, because the
parameter presence test is Python truthiness. -/
theorem c10_empty_string_filters (db : DB) (a b : Option String) :
    list_contacts db (some "") a b = list_contacts db none a b ∧
    list_contacts db a (some "") b = list_contacts db a none b ∧
    list_contacts db a b (some "") = list_contacts db a b none ∧
    list_deals db (some "") = list_deals db none ∧
    list_activities db (some "") a = list_activities db none a ∧
    list_activities db a (some "") = list_activities db a none :=
  ⟨rfl, rfl, rfl, rfl, rfl, rfl⟩

/-! ### Claim about storage-error surfacing -/

/-- An exception text of 300 characters — longer than every truncation bound
appearing in the code base (the `/test` endpoint truncates to 80 and 120
characters; the stats handler truncates nowhere). -/
def longExcText : String := String.mk (List.replicate 300 'x')

/-- C8 counterexample: a storage failure whose exception text has 300
characters is surfaced by `GET /stats/summary` with the *entire* text as the
error detail — the handler raises `HTTPException(500, detail=str(e))` with no
truncation, contradicting the claim that the detail is the exception text
truncated. -/
theorem c8_counterexample :
    stats_summary_endpoint (Except.error longExcText) =
      Except.error (500, longExcText) ∧
    longExcText.length = 300 :=
  ⟨rfl, by decide⟩

/-- C8 amended: a storage failure during `GET /stats/summary` is surfaced as
an HTTP 500 response whose error detail is the full exception text,
untruncated (and with a working store the endpoint returns the stats
document). -/
theorem c8_amended (e : String) (db : DB) :
    stats_summary_endpoint (Except.error e) = Except.error (500, e) ∧
    stats_summary_endpoint (Except.ok db) = Except.ok (stats_summary db) :=
  ⟨rfl, rfl⟩

/-! ### Claims about `GET /stats/summary` -/

/-- The `stage` field of a deal document, when it is a string (as the schema
guarantees for every deal stored through the API). -/
def stageStr (d : Doc) : Option String :=
  match dictGet d "stage" with
  | some (.vStr s) => some s
  | _ => none

/-- The `value` field is numeric or missing (as the schema guarantees for
deals stored through the API, `value` being a required float). -/
def numericOrMissing : Option Value → Bool
  | none => true
  | some (.vNum _) => true
  | _ => false

/-- The `value` of a deal document for the pipeline sum as the claim reads
it: the stored number, a missing value counting as 0. -/
def dealValue (d : Doc) : ℚ :=
  match dictGet d "value" with
  | some (.vNum q) => q
  | _ => 0

lemma stageStr_some (d : Doc) (h : (stageStr d).isSome = true) :
    ∃ s, dictGet d "stage" = some (Value.vStr s) := by
  cases hda : dictGet d "stage" with
  | none => simp [stageStr, hda] at h
  | some v => cases v <;> first
    | exact ⟨_, rfl⟩
    | simp [stageStr, hda] at h

lemma floatOrZero_eq_dealValue (d : Doc)
    (h : numericOrMissing (dictGet d "value") = true) :
    floatOrZero (dictGet d "value") = dealValue d := by
  cases hda : dictGet d "value" with
  | none => simp [floatOrZero, dealValue, hda]
  | some v => cases v <;> simp_all [floatOrZero, dealValue, numericOrMissing, hda]

/-- C1: the `active_deals` field of `GET /stats/summary` counts the deals
whose `stage` is not `"Lost"` — `"Won"` deals included. The hypothesis (every
stored deal's `stage` is a string) holds of every deal the API stores. -/
theorem c1_active_deals_not_lost (db : DB)
    (hstage : db.deal.all (fun d => (stageStr d).isSome) = true) :
    dictGet (stats_summary db) "active_deals" =
      some (Value.vNum
        ((db.deal.filter (fun d => stageStr d ≠ some "Lost")).length : ℚ)) := by
  have h1 : dictGet (stats_summary db) "active_deals" =
      some (Value.vNum
        ((count_documents db.deal [("stage", Cond.cnin [Value.vStr "Lost"])] : ℚ))) := rfl
  rw [h1]
  have h2 : count_documents db.deal [("stage", Cond.cnin [Value.vStr "Lost"])] =
      (db.deal.filter (fun d => stageStr d ≠ some "Lost")).length := by
    unfold count_documents findDocs
    congr 1
    apply List.filter_congr
    intro d hd
    obtain ⟨s, hs⟩ := stageStr_some d (List.all_eq_true.mp hstage d hd)
    simp [docMatches, condMatches, valMatchesEq, stageStr, hs]
  rw [h2]

/-- The deal collection of the spec's §8 example: three deals with values
100, 50, 25 and stages New, Won, Negotiation. -/
def dbEx3 : DB :=
  ⟨[], [],
   [[("_id", Value.vId 1), ("deal_name", Value.vStr "A"),
     ("value", Value.vNum 100), ("stage", Value.vStr "New")],
    [("_id", Value.vId 2), ("deal_name", Value.vStr "B"),
     ("value", Value.vNum 50), ("stage", Value.vStr "Won")],
    [("_id", Value.vId 3), ("deal_name", Value.vStr "C"),
     ("value", Value.vNum 25), ("stage", Value.vStr "Negotiation")]],
   [], [], 4⟩

/-- C1 witness: on the three deals with stages New, Won, Negotiation the
`active_deals` count is 3 (the Won deal is counted). -/
theorem c1_witness :
    dictGet (stats_summary dbEx3) "active_deals" = some (Value.vNum 3) := by
  have h := c1_active_deals_not_lost dbEx3 (by decide)
  rw [h]
  decide

lemma pipeline_foldl_eq_sum (l : List Doc) :
    ∀ a : ℚ, l.foldl (fun acc d => acc + floatOrZero (dictGet d "value")) a =
      a + (l.map (fun d => floatOrZero (dictGet d "value"))).sum := by
  induction l with
  | nil => intro a; simp
  | cons x xs ih => intro a; simp [ih, add_assoc]

/-- C2: the `pipeline_value` field of `GET /stats/summary` is the sum of
`value` over the deals whose stage is neither `"Won"` nor `"Lost"` (a missing
`value` counting as 0), and `won_deals` counts the deals with stage exactly
`"Won"`. The hypotheses (stages are strings, values numeric or missing) hold
of every deal the API stores. -/
theorem c2_pipeline_and_won (db : DB)
    (hstage : db.deal.all (fun d => (stageStr d).isSome) = true)
    (hval : db.deal.all (fun d => numericOrMissing (dictGet d "value")) = true) :
    dictGet (stats_summary db) "pipeline_value" =
      some (Value.vNum
        (((db.deal.filter
            (fun d => stageStr d ≠ some "Won" ∧ stageStr d ≠ some "Lost")).map
          dealValue).sum)) ∧
    dictGet (stats_summary db) "won_deals" =
      some (Value.vNum
        ((db.deal.filter (fun d => stageStr d = some "Won")).length : ℚ)) := by
  constructor
  · have h1 : dictGet (stats_summary db) "pipeline_value" =
        some (Value.vNum
          ((findDocs db.deal
              [("stage", Cond.cnin [Value.vStr "Won", Value.vStr "Lost"])]).foldl
            (fun acc d => acc + floatOrZero (dictGet d "value")) 0)) := rfl
    rw [h1, pipeline_foldl_eq_sum, zero_add]
    have hfl : findDocs db.deal
        [("stage", Cond.cnin [Value.vStr "Won", Value.vStr "Lost"])] =
        db.deal.filter
          (fun d => stageStr d ≠ some "Won" ∧ stageStr d ≠ some "Lost") := by
      unfold findDocs
      apply List.filter_congr
      intro d hd
      obtain ⟨s, hs⟩ := stageStr_some d (List.all_eq_true.mp hstage d hd)
      simp [docMatches, condMatches, valMatchesEq, stageStr, hs]
    rw [hfl]
    have hmap : (db.deal.filter
        (fun d => stageStr d ≠ some "Won" ∧ stageStr d ≠ some "Lost")).map
          (fun d => floatOrZero (dictGet d "value")) =
        (db.deal.filter
          (fun d => stageStr d ≠ some "Won" ∧ stageStr d ≠ some "Lost")).map
          dealValue := by
      apply List.map_congr_left
      intro d hd
      exact floatOrZero_eq_dealValue d
        (List.all_eq_true.mp hval d (List.mem_of_mem_filter hd))
    rw [hmap]
  · have h1 : dictGet (stats_summary db) "won_deals" =
        some (Value.vNum
          ((count_documents db.deal [("stage", Cond.ceq (Value.vStr "Won"))] : ℚ))) := rfl
    rw [h1]
    have h2 : count_documents db.deal [("stage", Cond.ceq (Value.vStr "Won"))] =
        (db.deal.filter (fun d => stageStr d = some "Won")).length := by
      unfold count_documents findDocs
      congr 1
      apply List.filter_congr
      intro d hd
      obtain ⟨s, hs⟩ := stageStr_some d (List.all_eq_true.mp hstage d hd)
      simp [docMatches, condMatches, valMatchesEq, stageStr, hs]
    rw [h2]

/-- C2 witness: on deals [{value:100, stage:New}, {value:50, stage:Won},
{value:25, stage:Negotiation}] the endpoint reports pipeline_value = 125 and
won_deals = 1. -/
theorem c2_witness :
    dictGet (stats_summary dbEx3) "pipeline_value" = some (Value.vNum 125) ∧
    dictGet (stats_summary dbEx3) "won_deals" = some (Value.vNum 1) := by
  have h := c2_pipeline_and_won dbEx3 (by decide) (by decide)
  refine ⟨?_, by rw [h.2]; decide⟩
  rw [h.1]
  simp +decide [dbEx3, dealValue, stageStr, dictGet, List.filter_cons,
    List.filter_nil, List.map_cons, List.map_nil, List.sum_cons, List.sum_nil]
  norm_num

/-! ### Claim about `POST /email/send` -/

/-- The empty store. -/
def dbEmpty : DB := ⟨[], [], [], [], [], 0⟩

lemma create_document_activity (db : DB) (payload : Doc) :
    (create_document db "activity" payload).1.activity =
      db.activity ++ [withId payload db.nextId] := rfl

lemma emailActivityDoc_fields (p : SendEmailPayload) (addr : String) (n : Nat) :
    dictGet (withId (emailActivityDoc p addr) n) "entity_type" =
        some (Value.vStr "contact") ∧
    dictGet (withId (emailActivityDoc p addr) n) "type" =
        some (Value.vStr "email_sent") ∧
    dictGet (withId (emailActivityDoc p addr) n) "entity_id" =
        some (Value.vStr addr) :=
  ⟨rfl, rfl, rfl⟩

lemma send_email_foldl (p : SendEmailPayload) :
    ∀ (addrs : List String) (db : DB),
      ∃ extra,
        (addrs.foldl
            (fun acc addr =>
              (create_document acc "activity" (emailActivityDoc p addr)).1)
            db).activity = db.activity ++ extra ∧
        List.Forall₂
          (fun addr d =>
            dictGet d "entity_type" = some (Value.vStr "contact") ∧
            dictGet d "type" = some (Value.vStr "email_sent") ∧
            dictGet d "entity_id" = some (Value.vStr addr))
          addrs extra := by
  intro addrs
  induction addrs with
  | nil => exact fun db => ⟨[], by simp, List.Forall₂.nil⟩
  | cons a rest ih =>
    intro db
    obtain ⟨extra, hact, hfa⟩ :=
      ih (create_document db "activity" (emailActivityDoc p a)).1
    refine ⟨withId (emailActivityDoc p a) db.nextId :: extra, ?_, ?_⟩
    · rw [List.foldl_cons, hact, create_document_activity]
      simp
    · exact List.Forall₂.cons (emailActivityDoc_fields p a db.nextId) hfa

/-- C4: `POST /email/send` appends to the activity collection exactly one
document per address in `to` — pairwise, the document for an address has
`entity_type` `"contact"`, `type` `"email_sent"` and `entity_id` equal to the
address — and responds `{status: "queued", provider: <given or "mock">,
sent: <length of to>}`. -/
theorem c4_send_email_creates_activities (db : DB) (p : SendEmailPayload) :
    (∃ extra,
      (send_email db p).1.activity = db.activity ++ extra ∧
      extra.length = p.«to».length ∧
      List.Forall₂
        (fun addr d =>
          dictGet d "entity_type" = some (Value.vStr "contact") ∧
          dictGet d "type" = some (Value.vStr "email_sent") ∧
          dictGet d "entity_id" = some (Value.vStr addr))
        p.«to» extra) ∧
    (send_email db p).2 = Resp.okDoc
      [("status", Value.vStr "queued"),
       ("provider", Value.vStr (providerOrMock p.provider)),
       ("sent", Value.vNum (p.«to».length : ℚ))] := by
  obtain ⟨extra, hact, hfa⟩ := send_email_foldl p p.«to» db
  exact ⟨⟨extra, hact, hfa.length_eq.symm, hfa⟩, rfl⟩

/-- The §8 example payload: two recipients, no provider given. -/
def payloadEx2 : SendEmailPayload :=
  ⟨["a@x.com", "b@x.com"], "Hello", "<p>Hi</p>", none⟩

/-- A payload whose provider is the falsy empty string, which Python's
`payload.provider or "mock"` replaces by `"mock"`. -/
def payloadExEmptyProvider : SendEmailPayload :=
  ⟨["a@x.com"], "Hello", "<p>Hi</p>", some ""⟩

/-- C4 witness: with `to = ["a@x.com", "b@x.com"]` exactly two activity
documents are appended and the response reports `sent: 2` with provider
`"mock"`; an empty-string provider is likewise reported as `"mock"`. -/
theorem c4_witness :
    ((∃ extra,
      (send_email dbEmpty payloadEx2).1.activity = [] ++ extra ∧
      extra.length = 2 ∧
      List.Forall₂
        (fun addr d =>
          dictGet d "entity_type" = some (Value.vStr "contact") ∧
          dictGet d "type" = some (Value.vStr "email_sent") ∧
          dictGet d "entity_id" = some (Value.vStr addr))
        ["a@x.com", "b@x.com"] extra) ∧
    (send_email dbEmpty payloadEx2).2 = Resp.okDoc
      [("status", Value.vStr "queued"),
       ("provider", Value.vStr "mock"),
       ("sent", Value.vNum 2)]) ∧
    (send_email dbEmpty payloadExEmptyProvider).2 = Resp.okDoc
      [("status", Value.vStr "queued"),
       ("provider", Value.vStr "mock"),
       ("sent", Value.vNum 1)] := by
  have h := c4_send_email_creates_activities dbEmpty payloadEx2
  have h' := c4_send_email_creates_activities dbEmpty payloadExEmptyProvider
  refine ⟨⟨h.1, h.2.trans ?_⟩, h'.2.trans ?_⟩
  · norm_num [payloadEx2, providerOrMock, truthyStr]
  · norm_num [payloadExEmptyProvider, providerOrMock, truthyStr]

/-! ### Claim about schema validation at the creation endpoints -/

lemma reqStrErr_of_none (p : Doc) (k : String) (h : dictGet p k = none) :
    reqStrErr p k = [k] := by
  unfold reqStrErr
  rw [h]

lemma reqStrErr_of_container (p : Doc) (k : String) (v : Value)
    (h : dictGet p k = some v) (hc : isContainer v = true) :
    reqStrErr p k = [k] := by
  unfold reqStrErr
  rw [h]
  cases v <;> simp_all [isContainer]

lemma reqNumErr_of_none (p : Doc) (k : String) (h : dictGet p k = none) :
    reqNumErr p k = [k] := by
  unfold reqNumErr
  rw [h]

lemma reqNumErr_of_container (p : Doc) (k : String) (v : Value)
    (h : dictGet p k = some v) (hc : isContainer v = true) :
    reqNumErr p k = [k] := by
  unfold reqNumErr
  rw [h]
  cases v <;> simp_all [isContainer]

lemma litErr_out_of_enum (p : Doc) (k : String) (allowed : List String)
    (v : Value) (h : dictGet p k = some v)
    (hb : ∀ s, v = Value.vStr s → s ∉ allowed) :
    litErr p k allowed = [k] := by
  unfold litErr
  rw [h]
  cases v <;> first
    | exact if_neg (hb _ rfl)
    | rfl

lemma reqLitErr_of_none (p : Doc) (k : String) (allowed : List String)
    (h : dictGet p k = none) : reqLitErr p k allowed = [k] := by
  unfold reqLitErr
  rw [h]

lemma reqLitErr_out_of_enum (p : Doc) (k : String) (allowed : List String)
    (v : Value) (h : dictGet p k = some v)
    (hb : ∀ s, v = Value.vStr s → s ∉ allowed) :
    reqLitErr p k allowed = [k] := by
  unfold reqLitErr
  rw [h]
  cases v <;> first
    | exact if_neg (hb _ rfl)
    | rfl

lemma create_contact_rejects (db : DB) (p : Doc) (k : String)
    (hk : k ∈ contactErrs p) :
    create_contact db p = (db, Resp.validationError (contactErrs p)) := by
  simp only [create_contact, validateContact]
  rw [if_neg (List.ne_nil_of_mem hk)]

lemma create_company_rejects (db : DB) (p : Doc) (k : String)
    (hk : k ∈ companyErrs p) :
    create_company db p = (db, Resp.validationError (companyErrs p)) := by
  simp only [create_company, validateCompany]
  rw [if_neg (List.ne_nil_of_mem hk)]

lemma create_deal_rejects (db : DB) (p : Doc) (k : String)
    (hk : k ∈ dealErrs p) :
    create_deal db p = (db, Resp.validationError (dealErrs p)) := by
  simp only [create_deal, validateDeal]
  rw [if_neg (List.ne_nil_of_mem hk)]

lemma create_activity_rejects (db : DB) (p : Doc) (k : String)
    (hk : k ∈ activityErrs p) :
    create_activity db p = (db, Resp.validationError (activityErrs p)) := by
  simp only [create_activity, validateActivity]
  rw [if_neg (List.ne_nil_of_mem hk)]

lemma create_campaign_rejects (db : DB) (p : Doc) (k : String)
    (hk : k ∈ campaignErrs p) :
    create_campaign db p = (db, Resp.validationError (campaignErrs p)) := by
  simp only [create_campaign, validateCampaign]
  rw [if_neg (List.ne_nil_of_mem hk)]

/-- C6: at every one of the five creation endpoints, a payload that omits a
required field, supplies a wrong primitive type (witnessed by the
version-robust instance: a container value for a scalar `str`/`float`/
`Literal` field, which every pydantic coercion mode rejects), or uses a value
outside a declared enumeration — in particular every Deal payload whose
`stage` is outside the declared enumeration — is rejected with a validation
error naming the offending field, before any store write: the store comes
back unchanged. -/
theorem c6_creation_validation_rejects (db : DB) (p : Doc) :
    ((∀ k, k ∈ (["first_name", "last_name"] : List String) →
        dictGet p k = none →
        ∃ errs, k ∈ errs ∧
          create_contact db p = (db, Resp.validationError errs)) ∧
     (∀ k, k ∈ (["first_name", "last_name"] : List String) →
        ∀ v, dictGet p k = some v → isContainer v = true →
        ∃ errs, k ∈ errs ∧
          create_contact db p = (db, Resp.validationError errs)) ∧
     (∀ v, dictGet p "funnel_stage" = some v →
        (∀ s, v = Value.vStr s → s ∉ contactStages) →
        ∃ errs, "funnel_stage" ∈ errs ∧
          create_contact db p = (db, Resp.validationError errs))) ∧
    ((dictGet p "company_name" = none →
        ∃ errs, "company_name" ∈ errs ∧
          create_company db p = (db, Resp.validationError errs)) ∧
     (∀ v, dictGet p "company_name" = some v → isContainer v = true →
        ∃ errs, "company_name" ∈ errs ∧
          create_company db p = (db, Resp.validationError errs))) ∧
    ((∀ k, k ∈ (["deal_name", "value"] : List String) →
        dictGet p k = none →
        ∃ errs, k ∈ errs ∧
          create_deal db p = (db, Resp.validationError errs)) ∧
     (∀ k, k ∈ (["deal_name", "value"] : List String) →
        ∀ v, dictGet p k = some v → isContainer v = true →
        ∃ errs, k ∈ errs ∧
          create_deal db p = (db, Resp.validationError errs)) ∧
     (∀ v, dictGet p "stage" = some v →
        (∀ s, v = Value.vStr s → s ∉ dealStages) →
        ∃ errs, "stage" ∈ errs ∧
          create_deal db p = (db, Resp.validationError errs))) ∧
    ((∀ k, k ∈ (["entity_type", "entity_id", "type", "message"] : List String) →
        dictGet p k = none →
        ∃ errs, k ∈ errs ∧
          create_activity db p = (db, Resp.validationError errs)) ∧
     (∀ k, k ∈ (["entity_id", "message"] : List String) →
        ∀ v, dictGet p k = some v → isContainer v = true →
        ∃ errs, k ∈ errs ∧
          create_activity db p = (db, Resp.validationError errs)) ∧
     (∀ v, dictGet p "entity_type" = some v →
        (∀ s, v = Value.vStr s → s ∉ activityEntityTypes) →
        ∃ errs, "entity_type" ∈ errs ∧
          create_activity db p = (db, Resp.validationError errs)) ∧
     (∀ v, dictGet p "type" = some v →
        (∀ s, v = Value.vStr s → s ∉ activityTypes) →
        ∃ errs, "type" ∈ errs ∧
          create_activity db p = (db, Resp.validationError errs))) ∧
    ((∀ k, k ∈ (["subject", "html", "segment"] : List String) →
        dictGet p k = none →
        ∃ errs, k ∈ errs ∧
          create_campaign db p = (db, Resp.validationError errs)) ∧
     (∀ k, k ∈ (["subject", "html"] : List String) →
        ∀ v, dictGet p k = some v → isContainer v = true →
        ∃ errs, k ∈ errs ∧
          create_campaign db p = (db, Resp.validationError errs)) ∧
     (∀ v, dictGet p "segment" = some v →
        (∀ s, v = Value.vStr s → s ∉ campaignSegments) →
        ∃ errs, "segment" ∈ errs ∧
          create_campaign db p = (db, Resp.validationError errs))) := by
  refine ⟨⟨?_, ?_, ?_⟩, ⟨?_, ?_⟩, ⟨?_, ?_, ?_⟩, ⟨?_, ?_, ?_, ?_⟩, ⟨?_, ?_, ?_⟩⟩
  · intro k hk h
    simp only [List.mem_cons, List.mem_singleton, List.not_mem_nil,
      or_false] at hk
    have hmem : k ∈ contactErrs p := by
      rcases hk with rfl | rfl <;>
        simp [contactErrs, reqStrErr_of_none p _ h]
    exact ⟨contactErrs p, hmem, create_contact_rejects db p k hmem⟩
  · intro k hk v h hc
    simp only [List.mem_cons, List.mem_singleton, List.not_mem_nil,
      or_false] at hk
    have hmem : k ∈ contactErrs p := by
      rcases hk with rfl | rfl <;>
        simp [contactErrs, reqStrErr_of_container p _ v h hc]
    exact ⟨contactErrs p, hmem, create_contact_rejects db p k hmem⟩
  · intro v h hb
    have hmem : "funnel_stage" ∈ contactErrs p := by
      simp [contactErrs, litErr_out_of_enum p _ contactStages v h hb]
    exact ⟨contactErrs p, hmem,
      create_contact_rejects db p "funnel_stage" hmem⟩
  · intro h
    have hmem : "company_name" ∈ companyErrs p := by
      simp [companyErrs, reqStrErr_of_none p _ h]
    exact ⟨companyErrs p, hmem,
      create_company_rejects db p "company_name" hmem⟩
  · intro v h hc
    have hmem : "company_name" ∈ companyErrs p := by
      simp [companyErrs, reqStrErr_of_container p _ v h hc]
    exact ⟨companyErrs p, hmem,
      create_company_rejects db p "company_name" hmem⟩
  · intro k hk h
    simp only [List.mem_cons, List.mem_singleton, List.not_mem_nil,
      or_false] at hk
    have hmem : k ∈ dealErrs p := by
      rcases hk with rfl | rfl
      · simp [dealErrs, reqStrErr_of_none p _ h]
      · simp [dealErrs, reqNumErr_of_none p _ h]
    exact ⟨dealErrs p, hmem, create_deal_rejects db p k hmem⟩
  · intro k hk v h hc
    simp only [List.mem_cons, List.mem_singleton, List.not_mem_nil,
      or_false] at hk
    have hmem : k ∈ dealErrs p := by
      rcases hk with rfl | rfl
      · simp [dealErrs, reqStrErr_of_container p _ v h hc]
      · simp [dealErrs, reqNumErr_of_container p _ v h hc]
    exact ⟨dealErrs p, hmem, create_deal_rejects db p k hmem⟩
  · intro v h hb
    have hmem : "stage" ∈ dealErrs p := by
      simp [dealErrs, litErr_out_of_enum p _ dealStages v h hb]
    exact ⟨dealErrs p, hmem, create_deal_rejects db p "stage" hmem⟩
  · intro k hk h
    simp only [List.mem_cons, List.mem_singleton, List.not_mem_nil,
      or_false] at hk
    have hmem : k ∈ activityErrs p := by
      rcases hk with rfl | rfl | rfl | rfl
      · simp [activityErrs, reqLitErr_of_none p _ activityEntityTypes h]
      · simp [activityErrs, reqStrErr_of_none p _ h]
      · simp [activityErrs, reqLitErr_of_none p _ activityTypes h]
      · simp [activityErrs, reqStrErr_of_none p _ h]
    exact ⟨activityErrs p, hmem, create_activity_rejects db p k hmem⟩
  · intro k hk v h hc
    simp only [List.mem_cons, List.mem_singleton, List.not_mem_nil,
      or_false] at hk
    have hmem : k ∈ activityErrs p := by
      rcases hk with rfl | rfl <;>
        simp [activityErrs, reqStrErr_of_container p _ v h hc]
    exact ⟨activityErrs p, hmem, create_activity_rejects db p k hmem⟩
  · intro v h hb
    have hmem : "entity_type" ∈ activityErrs p := by
      simp [activityErrs,
        reqLitErr_out_of_enum p _ activityEntityTypes v h hb]
    exact ⟨activityErrs p, hmem,
      create_activity_rejects db p "entity_type" hmem⟩
  · intro v h hb
    have hmem : "type" ∈ activityErrs p := by
      simp [activityErrs, reqLitErr_out_of_enum p _ activityTypes v h hb]
    exact ⟨activityErrs p, hmem,
      create_activity_rejects db p "type" hmem⟩
  · intro k hk h
    simp only [List.mem_cons, List.mem_singleton, List.not_mem_nil,
      or_false] at hk
    have hmem : k ∈ campaignErrs p := by
      rcases hk with rfl | rfl | rfl
      · simp [campaignErrs, reqStrErr_of_none p _ h]
      · simp [campaignErrs, reqStrErr_of_none p _ h]
      · simp [campaignErrs, reqLitErr_of_none p _ campaignSegments h]
    exact ⟨campaignErrs p, hmem, create_campaign_rejects db p k hmem⟩
  · intro k hk v h hc
    simp only [List.mem_cons, List.mem_singleton, List.not_mem_nil,
      or_false] at hk
    have hmem : k ∈ campaignErrs p := by
      rcases hk with rfl | rfl <;>
        simp [campaignErrs, reqStrErr_of_container p _ v h hc]
    exact ⟨campaignErrs p, hmem, create_campaign_rejects db p k hmem⟩
  · intro v h hb
    have hmem : "segment" ∈ campaignErrs p := by
      simp [campaignErrs, reqLitErr_out_of_enum p _ campaignSegments v h hb]
    exact ⟨campaignErrs p, hmem,
      create_campaign_rejects db p "segment" hmem⟩

/-- A Deal payload whose `stage` is outside the enumeration. -/
def badDealPayload : Doc :=
  [("deal_name", Value.vStr "D"), ("value", Value.vNum 10),
   ("stage", Value.vStr "Bogus")]

/-- A Contact payload whose `funnel_stage` is outside the enumeration. -/
def badContactPayload : Doc :=
  [("first_name", Value.vStr "A"), ("last_name", Value.vStr "B"),
   ("funnel_stage", Value.vStr "Bogus")]

/-- C6 witness: the Deal payload with `stage = "Bogus"` and the Contact
payload with `funnel_stage = "Bogus"` are each rejected with a validation
error naming the offending field, and the store is unchanged. -/
theorem c6_witness :
    (∃ errs, "stage" ∈ errs ∧
      create_deal dbEmpty badDealPayload =
        (dbEmpty, Resp.validationError errs)) ∧
    (∃ errs, "funnel_stage" ∈ errs ∧
      create_contact dbEmpty badContactPayload =
        (dbEmpty, Resp.validationError errs)) :=
  ⟨(c6_creation_validation_rejects dbEmpty badDealPayload).2.2.1.2.2
      (Value.vStr "Bogus") rfl
      (fun s hs => by injection hs with h; subst h; decide),
   (c6_creation_validation_rejects dbEmpty badContactPayload).1.2.2
      (Value.vStr "Bogus") rfl
      (fun s hs => by injection hs with h; subst h; decide)⟩

/-! ### Claim that no endpoint mutates or removes stored documents -/

/-- One store extends another when every collection of the former is a
prefix of the corresponding collection of the latter: every document present
before is still present, unchanged and in place, after. -/
def DB.grows (o n : DB) : Prop :=
  (∃ t, n.contact = o.contact ++ t) ∧
  (∃ t, n.company = o.company ++ t) ∧
  (∃ t, n.deal = o.deal ++ t) ∧
  (∃ t, n.activity = o.activity ++ t) ∧
  (∃ t, n.emailcampaign = o.emailcampaign ++ t)

lemma DB.grows_refl (db : DB) : DB.grows db db :=
  ⟨⟨[], by simp⟩, ⟨[], by simp⟩, ⟨[], by simp⟩, ⟨[], by simp⟩, ⟨[], by simp⟩⟩

lemma DB.grows_trans {a b c : DB} (h1 : DB.grows a b) (h2 : DB.grows b c) :
    DB.grows a c := by
  obtain ⟨⟨t1, e1⟩, ⟨t2, e2⟩, ⟨t3, e3⟩, ⟨t4, e4⟩, ⟨t5, e5⟩⟩ := h1
  obtain ⟨⟨u1, f1⟩, ⟨u2, f2⟩, ⟨u3, f3⟩, ⟨u4, f4⟩, ⟨u5, f5⟩⟩ := h2
  exact ⟨⟨t1 ++ u1, by rw [f1, e1, List.append_assoc]⟩,
         ⟨t2 ++ u2, by rw [f2, e2, List.append_assoc]⟩,
         ⟨t3 ++ u3, by rw [f3, e3, List.append_assoc]⟩,
         ⟨t4 ++ u4, by rw [f4, e4, List.append_assoc]⟩,
         ⟨t5 ++ u5, by rw [f5, e5, List.append_assoc]⟩⟩

lemma create_document_grows (db : DB) (et : String) (p : Doc) :
    DB.grows db (create_document db et p).1 := by
  unfold create_document putColl getColl
  split_ifs
  · exact ⟨⟨[withId p db.nextId], rfl⟩, ⟨[], by simp⟩, ⟨[], by simp⟩,
      ⟨[], by simp⟩, ⟨[], by simp⟩⟩
  · exact ⟨⟨[], by simp⟩, ⟨[withId p db.nextId], rfl⟩, ⟨[], by simp⟩,
      ⟨[], by simp⟩, ⟨[], by simp⟩⟩
  · exact ⟨⟨[], by simp⟩, ⟨[], by simp⟩, ⟨[withId p db.nextId], rfl⟩,
      ⟨[], by simp⟩, ⟨[], by simp⟩⟩
  · exact ⟨⟨[], by simp⟩, ⟨[], by simp⟩, ⟨[], by simp⟩,
      ⟨[withId p db.nextId], rfl⟩, ⟨[], by simp⟩⟩
  · exact ⟨⟨[], by simp⟩, ⟨[], by simp⟩, ⟨[], by simp⟩, ⟨[], by simp⟩,
      ⟨[withId p db.nextId], rfl⟩⟩
  · exact DB.grows_refl db

lemma send_email_grows (p : SendEmailPayload) :
    ∀ (addrs : List String) (db : DB),
      DB.grows db
        (addrs.foldl
          (fun acc addr =>
            (create_document acc "activity" (emailActivityDoc p addr)).1)
          db) := by
  intro addrs
  induction addrs with
  | nil => exact fun db => DB.grows_refl db
  | cons a rest ih =>
    intro db
    rw [List.foldl_cons]
    exact DB.grows_trans
      (create_document_grows db "activity" (emailActivityDoc p a)) (ih _)

/-- C9: no route of the system mutates or removes a previously created
document — after any request every collection is the old collection plus
possibly appended new documents — and the read routes (the GET list/stats
endpoints and the probes) leave the store exactly as it was. The `Request`
type enumerates every route `main.py` registers: no update or delete
operation exists. -/
theorem c9_no_update_or_delete (db : DB) (r : Request) :
    DB.grows db (handle db r).1 ∧
    (Request.isRead r = true → (handle db r).1 = db) := by
  cases r with
  | root => exact ⟨DB.grows_refl db, fun _ => rfl⟩
  | testDb => exact ⟨DB.grows_refl db, fun _ => rfl⟩
  | createContact p =>
    refine ⟨?_, fun h => by simp [Request.isRead] at h⟩
    cases hv : validateContact p with
    | error errs => simp [handle, create_contact, hv]; exact DB.grows_refl db
    | ok d =>
      simp [handle, create_contact, hv]
      exact create_document_grows db "contact" d
  | createCompany p =>
    refine ⟨?_, fun h => by simp [Request.isRead] at h⟩
    cases hv : validateCompany p with
    | error errs => simp [handle, create_company, hv]; exact DB.grows_refl db
    | ok d =>
      simp [handle, create_company, hv]
      exact create_document_grows db "company" d
  | createDeal p =>
    refine ⟨?_, fun h => by simp [Request.isRead] at h⟩
    cases hv : validateDeal p with
    | error errs => simp [handle, create_deal, hv]; exact DB.grows_refl db
    | ok d =>
      simp [handle, create_deal, hv]
      exact create_document_grows db "deal" d
  | createActivity p =>
    refine ⟨?_, fun h => by simp [Request.isRead] at h⟩
    cases hv : validateActivity p with
    | error errs => simp [handle, create_activity, hv]; exact DB.grows_refl db
    | ok d =>
      simp [handle, create_activity, hv]
      exact create_document_grows db "activity" d
  | createCampaign p =>
    refine ⟨?_, fun h => by simp [Request.isRead] at h⟩
    cases hv : validateCampaign p with
    | error errs => simp [handle, create_campaign, hv]; exact DB.grows_refl db
    | ok d =>
      simp [handle, create_campaign, hv]
      exact create_document_grows db "emailcampaign" d
  | listContacts t c s => exact ⟨DB.grows_refl db, fun _ => rfl⟩
  | listCompanies => exact ⟨DB.grows_refl db, fun _ => rfl⟩
  | listDeals s => exact ⟨DB.grows_refl db, fun _ => rfl⟩
  | listActivities t i => exact ⟨DB.grows_refl db, fun _ => rfl⟩
  | statsSummary => exact ⟨DB.grows_refl db, fun _ => rfl⟩
  | emailSend p =>
    refine ⟨?_, fun h => by simp [Request.isRead] at h⟩
    simp [handle, send_email]
    exact send_email_grows p p.«to» db

/-- C9 witness: a stats request against a concrete store leaves it
unchanged. -/
theorem c9_witness :
    DB.grows dbEx3 (handle dbEx3 Request.statsSummary).1 ∧
    (handle dbEx3 Request.statsSummary).1 = dbEx3 :=
  ⟨(c9_no_update_or_delete dbEx3 Request.statsSummary).1,
   (c9_no_update_or_delete dbEx3 Request.statsSummary).2 rfl⟩

end SimpleCRM
